import Mathlib

/-!
Verification development for the launcher docker subsystem
(`src/launcher/docker.go` of clabernetes).

The source file drives an external docker runtime through `os/exec`
commands.  We shallowly embed each function: external command outcomes
(exit status, captured stdout, per-attempt probe results) are inputs to
the embedded functions, Go errors become an explicit inductive type, and
the Go standard-library string operations the file uses
(`strings.Split`, `strings.TrimSpace`, `strings.Join`, `strings.EqualFold`,
`fmt.Sprintf("%q", ...)`) are modelled as executable Lean functions.
-/

/-- Model of a Go `error` value as used by `docker.go`:
`errLaunch` is the sentinel `claberneteserrors.ErrLaunch`;
`wrapf inner msg` is `fmt.Errorf("%w: <msg>", inner)`;
`cmdFailure msg` is an error returned by `exec.Cmd.Run`/`Output`. -/
inductive GoError
  | errLaunch
  | wrapf (inner : GoError) (msg : String)
  | cmdFailure (msg : String)
deriving DecidableEq, Repr, Inhabited

/-- Model of Go `unicode.IsSpace` restricted to Latin-1 (the full Go
predicate also accepts higher Unicode space code points; container ids
and addresses are ASCII, so this is the relevant fragment). -/
def goIsSpace (c : Char) : Bool :=
  c == ' ' || c == '\t' || c == '\n' || c == '\x0b' || c == '\x0c' ||
    c == '\r' || c == '\u0085' || c == ' '

/-- Model of Go `strings.TrimSpace`: drop leading and trailing space
characters. -/
def trimSpace (s : String) : String :=
  String.mk (((s.toList.dropWhile goIsSpace).reverse.dropWhile goIsSpace).reverse)

/-- Splitting a character list at every occurrence of `sep`; empty parts
are kept, and the empty list yields one empty part, matching Go
`strings.Split` with a single-character separator. -/
def splitCharList (sep : Char) : List Char → List (List Char)
  | [] => [[]]
  | c :: rest =>
    match splitCharList sep rest with
    | [] => [[]]
    | p :: ps => if c == sep then [] :: p :: ps else (c :: p) :: ps

/-- Model of Go `strings.Split s sep` for a single-character separator. -/
def goSplit (s : String) (sep : Char) : List String :=
  (splitCharList sep s.toList).map String.mk

/-- Model of Go `strings.Join`. -/
def goJoin (sep : String) : List String → String
  | [] => ""
  | [x] => x
  | x :: y :: rest => x ++ sep ++ goJoin sep (y :: rest)

/-- Trace of one `startDocker` run: how many times the readiness probe
(`docker ps`) ran, how many times the restart command
(`service docker start`) ran, and the returned Go error (`none` is a
`nil` error, i.e. success). -/
structure StartTrace where
  probes : Nat
  restarts : Nat
  result : Option GoError
deriving DecidableEq, Repr

/-- The retry loop of `startDocker` from `docker.go:109`, entered with
counter value `attempts`.  `probe n` is the exit status of the `docker ps`
probe run while `attempts = n` (`true` = exit 0); `restart n` is the
outcome of the `service docker start` command run while `attempts = n`
(`none` = success).  `maxAttempts` stands for the constant
`maxDockerLaunchAttempts`.  Mirrors the source: probe; on success return
nil; else if `attempts > maxAttempts` return the wrapped launch error
`"failed starting docker"`; else restart (propagating its error as-is),
sleep, increment, loop. -/
def startDockerFrom (maxAttempts : Nat) (probe : Nat → Bool)
    (restart : Nat → Option GoError) (attempts : Nat) : StartTrace :=
  if probe attempts then
    { probes := 1, restarts := 0, result := none }
  else if _h : attempts > maxAttempts then
    { probes := 1, restarts := 0,
      result := some (.wrapf .errLaunch "failed starting docker") }
  else
    match restart attempts with
    | some e => { probes := 1, restarts := 1, result := some e }
    | none =>
      let rest := startDockerFrom maxAttempts probe restart (attempts + 1)
      { probes := rest.probes + 1, restarts := rest.restarts + 1,
        result := rest.result }
termination_by maxAttempts + 1 - attempts
decreasing_by omega

/-- `startDocker` (`docker.go:109`): the loop starts with `attempts = 0`. -/
def startDocker (maxAttempts : Nat) (probe : Nat → Bool)
    (restart : Nat → Option GoError) : StartTrace :=
  startDockerFrom maxAttempts probe restart 0

/-- The accumulation loop of `getContainerIDs` (`docker.go:160-170`): for
each line of the command output, trim it and keep it when non-empty. -/
def collectContainerIDs : List String → List String
  | [] => []
  | line :: rest =>
    let trimmedLine := trimSpace line
    if trimmedLine != "" then trimmedLine :: collectContainerIDs rest
    else collectContainerIDs rest

/-- `getContainerIDs` (`docker.go:144`): `cmdOutput` is the outcome of
`docker ps [-a] --quiet` (`Output()` captures stdout).  On command failure
the error is returned; on success the output is split on newlines and the
trimmed non-empty lines are collected. -/
def getContainerIDs (cmdOutput : Except GoError String) :
    Except GoError (List String) :=
  match cmdOutput with
  | .error e => .error e
  | .ok output => .ok (collectContainerIDs (goSplit output '\n'))

/-- One `docker logs <id>` invocation made by `printContainerLogs`
(`docker.go:181-186`): the argument list is `["logs", containerID]`. -/
structure LogsCall where
  containerID : String
  args : List String
deriving DecidableEq, Repr

/-- A warning emitted through `logger.Warnf`, attributed to a container
identifier and carrying the underlying error. -/
structure LogWarning where
  containerID : String
  err : GoError
deriving DecidableEq, Repr

/-- `printContainerLogs` (`docker.go:175`): `runOutcome cid` is the result
of running `docker logs cid` (`none` = exit 0).  The loop visits every
identifier in order; a failing invocation only adds a warning for that
identifier and the loop continues.  Returns the sequence of invocations
made and the warnings emitted, in order; the Go function itself returns
nothing and never fails. -/
def printContainerLogs (runOutcome : String → Option GoError) :
    List String → List LogsCall × List LogWarning
  | [] => ([], [])
  | containerID :: rest =>
    let (calls, warns) := printContainerLogs runOutcome rest
    match runOutcome containerID with
    | none => (⟨containerID, ["logs", containerID]⟩ :: calls, warns)
    | some e =>
      (⟨containerID, ["logs", containerID]⟩ :: calls,
        ⟨containerID, e⟩ :: warns)

/-- One follow goroutine launched by `tailContainerLogs`
(`docker.go:213-233`): it will run `docker logs -f <id>` with output wired
to the merged writer. -/
structure FollowTask where
  containerID : String
  args : List String
deriving DecidableEq, Repr

/-- `tailContainerLogs` (`docker.go:200`): `createResult` is the outcome
of `os.Create("node.log")` (`some e` = failure), the one fallible step.
On failure that error is returned; otherwise one follow goroutine per
identifier is launched (fire-and-forget) and the function returns `ok`
with the launched tasks immediately.  The goroutines' own outcomes are
not an input: the returned value cannot depend on them, which models that
the call does not wait for, and no task failure propagates to, the
caller. -/
def tailContainerLogs (createResult : Option GoError)
    (containerIDs : List String) : Except GoError (List FollowTask) :=
  match createResult with
  | some e => .error e
  | none =>
    .ok (containerIDs.map fun containerID =>
      ⟨containerID, ["logs", "-f", containerID]⟩)

/-- The body of one follow goroutine after `cmd.Run()` returns
(`docker.go:226-231`): a failing follow command produces exactly one
warning tagged with that container's identifier; a clean exit produces
nothing.  Nothing is returned to the launching caller either way. -/
def followTaskWarnings (runOutcome : String → Option GoError)
    (t : FollowTask) : List LogWarning :=
  match runOutcome t.containerID with
  | none => []
  | some e => [⟨t.containerID, e⟩]

/-- `getContainerIDForNodeName` (`docker.go:238`): `cmdOutput` is the
outcome of `docker ps --quiet --filter name=<nodeName>`.  On command
failure the error is returned; on success the captured stdout is trimmed
and returned (empty output, i.e. zero matches, yields `""` with a nil
error). -/
def getContainerIDForNodeName (cmdOutput : Except GoError String) :
    Except GoError String :=
  match cmdOutput with
  | .error e => .error e
  | .ok output => .ok (trimSpace output)

/-- Rendering of the inspect format template
`(range .NetworkSettings.Networks)(.IPAddress)(end)` (with Go template
braces) passed by `getContainerAddr` (`docker.go:262`), per Go
`text/template` semantics: `range` iterates over every attached network
and emits its `IPAddress`, so the output is the concatenation of all
attached networks' addresses, in iteration order. -/
def inspectFormatOutput : List String → String
  | [] => ""
  | addr :: rest => addr ++ inspectFormatOutput rest

/-- `getContainerAddr` (`docker.go:256`): `cmdOutput` is the outcome of
`docker inspect --format <template> <containerID>`.  On command failure
the error is returned; on success the captured stdout is trimmed and
returned. -/
def getContainerAddr (cmdOutput : Except GoError String) :
    Except GoError String :=
  match cmdOutput with
  | .error e => .error e
  | .ok output => .ok (trimSpace output)

/-- `vfsStorageDriver` (`docker.go:21`). -/
def vfsStorageDriver : String := "vfs"

/-- `overlayStorageDriver` (`docker.go:22`). -/
def overlayStorageDriver : String := "overlay2"

/-- Modelled from the spec: the constant `clabernetesconstants.True`
compared against the privileged-mode environment variable; the constants
package is outside this file, and the spec describes the flag as the
fixed value `"true"` checked case-insensitively. -/
def clabernetesTrue : String := "true"

/-- Model of Go `strings.EqualFold` restricted to ASCII simple case
folding (the values compared here are `"true"`-like flags). -/
def goEqualFold (a b : String) : Bool :=
  a.toList.map Char.toLower == b.toList.map Char.toLower

/-- Model of Go `fmt.Sprintf("%q", s)` for strings of printable ASCII:
wrap in double quotes, escaping backslash and double quote (control and
non-ASCII escapes are not needed for registry host names). -/
def goQuote (s : String) : String :=
  "\"" ++
    String.join (s.toList.map fun c =>
      if c == '"' then "\\\"" else
      if c == '\\' then "\\\\" else String.singleton c) ++
    "\""

/-- The template variables struct filled by `handleInsecureRegistries`
(`docker.go:46-52`). -/
structure DaemonConfigTemplateVars where
  storageDriver : String
  insecureRegistries : String
deriving DecidableEq, Repr

/-- Observable outcome of `handleInsecureRegistries`: either it returns
nil without touching the daemon config file, or it renders and writes the
config from the given template variables. -/
inductive ConfigAction
  | noWrite
  | write (vars : DaemonConfigTemplateVars)
deriving DecidableEq, Repr

/-- `handleInsecureRegistries` (`docker.go:31`): `insecureRegistries` and
`privilegedEnv` are the values of the two environment variables read.  An
empty registry list returns immediately with no write.  Otherwise the
registries are split on commas, each quoted with `%q` and joined with
commas; the storage driver starts as `vfs` and is switched to `overlay2`
unless the privileged flag equals `"true"` under `strings.EqualFold`;
the config is then rendered and written.  (Template parsing/execution and
the file write are I/O steps whose own failures are outside this model.) -/
def handleInsecureRegistries (insecureRegistries privilegedEnv : String) :
    ConfigAction :=
  if insecureRegistries == "" then
    .noWrite
  else
    let splitRegistries := goSplit insecureRegistries ','
    let quotedRegistries := splitRegistries.map goQuote
    let templateVars : DaemonConfigTemplateVars :=
      { storageDriver := vfsStorageDriver,
        insecureRegistries := goJoin "," quotedRegistries }
    let templateVars :=
      if !goEqualFold privilegedEnv clabernetesTrue then
        { templateVars with storageDriver := overlayStorageDriver }
      else templateVars
    .write templateVars

/-- The storage driver a `ConfigAction` would render with, when it writes
at all. -/
def storageDriverChosen : ConfigAction → Option String
  | .noWrite => none
  | .write vars => some vars.storageDriver

/-! ## Helper lemmas -/

theorem dropWhile_head_false {α : Type} (p : α → Bool) (l : List α)
    (a : α) (as : List α) (h : l.dropWhile p = a :: as) : p a = false := by
  have hh := List.head?_dropWhile_not p l
  rw [h] at hh
  simpa using hh

theorem goIsSpace_newline : goIsSpace '\n' = true := by decide

theorem trimSpace_append_newline (tok : String) :
    trimSpace (tok ++ "\n") = trimSpace tok := by
  unfold trimSpace
  have hdata : (tok ++ "\n").toList = tok.toList ++ ['\n'] := by
    show (tok ++ "\n").data = tok.data ++ ['\n']
    rw [String.data_append]
  rw [hdata, List.dropWhile_append]
  by_cases h : (tok.toList.dropWhile goIsSpace).isEmpty
  · rw [if_pos h]
    rw [List.isEmpty_iff] at h
    rw [h]
    simp [List.dropWhile_cons, goIsSpace_newline]
  · rw [if_neg h]
    rw [List.reverse_append]
    simp [List.dropWhile_cons, goIsSpace_newline]

theorem collectContainerIDs_eq (lines : List String) :
    collectContainerIDs lines =
      (lines.map trimSpace).filter (fun s => s != "") := by
  induction lines with
  | nil => rfl
  | cons l ls ih =>
    by_cases h : trimSpace l != ""
    · simp only [collectContainerIDs, List.map_cons, List.filter_cons,
        if_pos h, ih, h]
    · simp only [collectContainerIDs, List.map_cons, List.filter_cons,
        if_neg h, ih, h]

theorem trimSpace_has_nonspace (x : String) (h : trimSpace x ≠ "") :
    ∃ c ∈ (trimSpace x).toList, goIsSpace c = false := by
  by_cases hc : (x.toList.dropWhile goIsSpace).reverse.dropWhile goIsSpace = []
  · exfalso
    apply h
    unfold trimSpace
    rw [hc]
    rfl
  · obtain ⟨a, as, ha⟩ := List.exists_cons_of_ne_nil hc
    have hpa : goIsSpace a = false := dropWhile_head_false _ _ _ _ ha
    refine ⟨a, ?_, hpa⟩
    unfold trimSpace
    show a ∈ ((x.toList.dropWhile goIsSpace).reverse.dropWhile goIsSpace).reverse
    rw [ha]
    simp

/-- Under an always-failing probe and always-succeeding restarts, the
loop entered with `attempts = a` runs `k + 1` more probes and `k` more
restarts, where `k = maxAttempts + 1 - a`, then returns the wrapped
launch error. -/
theorem startDockerFrom_allFail (maxAttempts : Nat) (probe : Nat → Bool)
    (restart : Nat → Option GoError)
    (hp : ∀ n, probe n = false) (hr : ∀ n, restart n = none) :
    ∀ k a, a + k = maxAttempts + 1 →
      startDockerFrom maxAttempts probe restart a =
        { probes := k + 1, restarts := k,
          result := some (.wrapf .errLaunch "failed starting docker") } := by
  intro k
  induction k with
  | zero =>
    intro a ha
    unfold startDockerFrom
    simp [hp, hr]
    omega
  | succ k ih =>
    intro a ha
    have hle : ¬ maxAttempts < a := by omega
    unfold startDockerFrom
    simp [hp, hr, hle]
    rw [ih (a + 1) (by omega)]
    exact ⟨rfl, rfl, rfl⟩

/-- If the probe fails and the restart succeeds at every counter value
below `i`, and the probe succeeds at counter value `i ≤ maxAttempts + 1`,
the loop entered with `attempts = a ≤ i` runs `k + 1` more probes and `k`
more restarts, where `k = i - a`, then returns nil. -/
theorem startDockerFrom_firstSuccess (maxAttempts : Nat)
    (probe : Nat → Bool) (restart : Nat → Option GoError) (i : Nat)
    (hi : i ≤ maxAttempts + 1)
    (hp : ∀ j, j < i → probe j = false)
    (hr : ∀ j, j < i → restart j = none)
    (hs : probe i = true) :
    ∀ k a, a + k = i →
      startDockerFrom maxAttempts probe restart a =
        { probes := k + 1, restarts := k, result := none } := by
  intro k
  induction k with
  | zero =>
    intro a ha
    unfold startDockerFrom
    have : a = i := by omega
    simp [this, hs]
  | succ k ih =>
    intro a ha
    have hle : ¬ maxAttempts < a := by omega
    unfold startDockerFrom
    simp [hp a (by omega), hr a (by omega), hle]
    rw [ih (a + 1) (by omega)]
    exact ⟨rfl, rfl, rfl⟩

/-- If the probe fails and the restart succeeds at every counter value
below `i`, the probe also fails at `i ≤ maxAttempts`, and the restart at
`i` fails with `e`, the loop entered with `attempts = a ≤ i` runs `k + 1`
more probes and `k + 1` more restarts, where `k = i - a`, then returns
`e` unchanged. -/
theorem startDockerFrom_restartFails (maxAttempts : Nat)
    (probe : Nat → Bool) (restart : Nat → Option GoError) (i : Nat)
    (e : GoError) (hi : i ≤ maxAttempts)
    (hp : ∀ j, j ≤ i → probe j = false)
    (hr : ∀ j, j < i → restart j = none)
    (he : restart i = some e) :
    ∀ k a, a + k = i →
      startDockerFrom maxAttempts probe restart a =
        { probes := k + 1, restarts := k + 1, result := some e } := by
  intro k
  induction k with
  | zero =>
    intro a ha
    have hai : a = i := by omega
    subst hai
    have hle : ¬ maxAttempts < a := by omega
    unfold startDockerFrom
    simp [hp a le_rfl, hle, he]
  | succ k ih =>
    intro a ha
    have hle : ¬ maxAttempts < a := by omega
    unfold startDockerFrom
    simp [hp a (by omega), hr a (by omega), hle]
    rw [ih (a + 1) (by omega)]
    exact ⟨rfl, rfl, rfl⟩

/-- A `filterMap` over a list containing exactly one element the function
keeps reduces to a singleton. -/
theorem filterMap_single_hit {α β : Type} [DecidableEq α]
    (f : α → Option β) (l : List α) (bad : α) (b : β)
    (hbad : f bad = some b)
    (hrest : ∀ c, c ∈ l → c ≠ bad → f c = none)
    (hcount : l.count bad = 1) :
    l.filterMap f = [b] := by
  induction l with
  | nil => simp at hcount
  | cons c cs ih =>
    by_cases hc : c = bad
    · subst hc
      have hzero : cs.count c = 0 := by
        have hcc := List.count_cons c c cs
        simp only [beq_self_eq_true, if_true] at hcc
        omega
      have hnotin : c ∉ cs := List.count_eq_zero.mp hzero
      have hnil : cs.filterMap f = [] := by
        rw [List.filterMap_eq_nil_iff]
        intro a hac
        exact hrest a (List.mem_cons_of_mem _ hac)
          (fun hEq => hnotin (hEq ▸ hac))
      simp [List.filterMap_cons, hbad, hnil]
    · have hfc : f c = none := hrest c (List.mem_cons_self c cs) hc
      have hcnt : cs.count bad = 1 := by
        have hcc := List.count_cons bad c cs
        simp only [beq_iff_eq, if_neg hc] at hcc
        omega
      rw [List.filterMap_cons, hfc]
      exact ih (fun d hd => hrest d (List.mem_cons_of_mem _ hd)) hcnt

/-! ## Claim theorems -/

/-- C1 (counterexample): with attempt ceiling 3 and an always-failing
probe (restarts succeeding), `startDocker` does NOT perform 4 probe and 3
restart invocations as claimed — it performs 5 and 4. -/
theorem startDocker_counts_cex :
    ¬ ((startDocker 3 (fun _ => false) (fun _ => none)).probes = 4 ∧
       (startDocker 3 (fun _ => false) (fun _ => none)).restarts = 3) := by
  have h := startDockerFrom_allFail 3 (fun _ => false) (fun _ => none)
    (fun _ => rfl) (fun _ => rfl) 4 0 rfl
  unfold startDocker
  rw [h]
  simp

/-- C1 (amended): for every attempt ceiling `M ≥ 0`, if every readiness
probe fails and every restart succeeds, `startDocker` performs exactly
`M + 2` probe invocations and `M + 1` restart invocations before
returning its terminal failure (the strict `attempts > M` check runs one
extra attempt past the ceiling); with ceiling 3 this is 5 probes and 4
restarts. -/
theorem startDocker_counts (maxAttempts : Nat) (probe : Nat → Bool)
    (restart : Nat → Option GoError)
    (hp : ∀ n, probe n = false) (hr : ∀ n, restart n = none) :
    startDocker maxAttempts probe restart =
      { probes := maxAttempts + 2, restarts := maxAttempts + 1,
        result := some (.wrapf .errLaunch "failed starting docker") } := by
  unfold startDocker
  exact startDockerFrom_allFail maxAttempts probe restart hp hr
    (maxAttempts + 1) 0 (by omega)

/-- C1 (witness): the amended count at ceiling 3. -/
theorem startDocker_counts_witness :
    startDocker 3 (fun _ => false) (fun _ => none) =
      { probes := 5, restarts := 4,
        result := some (.wrapf .errLaunch "failed starting docker") } :=
  startDocker_counts 3 (fun _ => false) (fun _ => none)
    (fun _ => rfl) (fun _ => rfl)

/-- C7 (counterexample): the terminal failure of `startDocker` is not an
error wrapping the launch sentinel with message
`"daemon did not become ready"` — the message is
`"failed starting docker"`. -/
theorem startDocker_message_cex :
    (startDocker 0 (fun _ => false) (fun _ => none)).result ≠
      some (.wrapf .errLaunch "daemon did not become ready") := by
  have h := startDockerFrom_allFail 0 (fun _ => false) (fun _ => none)
    (fun _ => rfl) (fun _ => rfl) 1 0 rfl
  unfold startDocker
  rw [h]
  decide

/-- C7 (amended): when `startDocker` exhausts its attempt ceiling without
a successful probe (restarts succeeding), it fails permanently with the
`LaunchError` wrapping the launch sentinel with message
`"failed starting docker"`. -/
theorem startDocker_exhaustion_error (maxAttempts : Nat)
    (probe : Nat → Bool) (restart : Nat → Option GoError)
    (hp : ∀ n, probe n = false) (hr : ∀ n, restart n = none) :
    (startDocker maxAttempts probe restart).result =
      some (.wrapf .errLaunch "failed starting docker") := by
  unfold startDocker
  rw [startDockerFrom_allFail maxAttempts probe restart hp hr
    (maxAttempts + 1) 0 (by omega)]

/-- C7 (witness): the amended terminal error at ceiling 2. -/
theorem startDocker_exhaustion_error_witness :
    (startDocker 2 (fun _ => false) (fun _ => none)).result =
      some (.wrapf .errLaunch "failed starting docker") :=
  startDocker_exhaustion_error 2 (fun _ => false) (fun _ => none)
    (fun _ => rfl) (fun _ => rfl)

/-- C8: if the first failing restart command (at counter value `i`, with
all earlier probes failing, earlier restarts succeeding, and the ceiling
not yet exceeded) fails with error `e`, `startDocker` returns exactly `e`
— unwrapped — and stops immediately: `i + 1` probes and `i + 1` restarts
in total, with no further retry. -/
theorem startDocker_restart_failure_propagates (maxAttempts i : Nat)
    (probe : Nat → Bool) (restart : Nat → Option GoError) (e : GoError)
    (hi : i ≤ maxAttempts)
    (hp : ∀ j, j ≤ i → probe j = false)
    (hr : ∀ j, j < i → restart j = none)
    (he : restart i = some e) :
    startDocker maxAttempts probe restart =
      { probes := i + 1, restarts := i + 1, result := some e } := by
  unfold startDocker
  exact startDockerFrom_restartFails maxAttempts probe restart i e hi
    hp hr he i 0 (by omega)

/-- C8 (witness): a restart failure at the second attempt is surfaced
as-is. -/
theorem startDocker_restart_failure_witness :
    startDocker 3
        (fun _ => false)
        (fun n => if n == 1 then some (.cmdFailure "service start failed")
          else none) =
      { probes := 2, restarts := 2,
        result := some (.cmdFailure "service start failed") } :=
  startDocker_restart_failure_propagates 3 1
    (fun _ => false)
    (fun n => if n == 1 then some (.cmdFailure "service start failed")
      else none)
    (.cmdFailure "service start failed")
    (by decide) (fun j _ => rfl) (by decide) (by decide)

/-- C9: for every `k` with `1 ≤ k ≤ M + 1`, if the readiness probe first
succeeds on attempt `k` (earlier probes failing, earlier restarts
succeeding), `startDocker` returns success immediately with exactly `k`
probes and `k - 1` restarts — no restart is issued after attempt `k`. -/
theorem startDocker_success_at_k (maxAttempts k : Nat)
    (probe : Nat → Bool) (restart : Nat → Option GoError)
    (h1 : 1 ≤ k) (h2 : k ≤ maxAttempts + 1)
    (hp : ∀ j, j < k - 1 → probe j = false)
    (hr : ∀ j, j < k - 1 → restart j = none)
    (hs : probe (k - 1) = true) :
    startDocker maxAttempts probe restart =
      { probes := k, restarts := k - 1, result := none } := by
  unfold startDocker
  have h := startDockerFrom_firstSuccess maxAttempts probe restart (k - 1)
    (by omega) hp hr hs (k - 1) 0 (by omega)
  rw [h]
  have hk : k - 1 + 1 = k := by omega
  rw [hk]

/-- C9 (witness): first success on attempt 2 with ceiling 3 gives 2
probes, 1 restart, success. -/
theorem startDocker_success_witness :
    startDocker 3 (fun n => n == 1) (fun _ => none) =
      { probes := 2, restarts := 1, result := none } :=
  startDocker_success_at_k 3 2 (fun n => n == 1) (fun _ => none)
    (by decide) (by decide) (by decide) (fun j _ => rfl) (by decide)

/-- C2: `getContainerIDs` returns an error exactly on command failure,
and on success returns exactly the sequence of trimmed non-empty lines of
the raw output in original line order; no returned entry is blank or
whitespace-only; and raw output `"abc\n\n  \ndef\n"` yields
`["abc", "def"]`. -/
theorem getContainerIDs_spec :
    (∀ e, getContainerIDs (.error e) = .error e) ∧
    (∀ raw, getContainerIDs (.ok raw) =
        .ok (((goSplit raw '\n').map trimSpace).filter (fun s => s != ""))) ∧
    (∀ raw ids s, getContainerIDs (.ok raw) = .ok ids → s ∈ ids →
        s ≠ "" ∧ ∃ c ∈ s.toList, goIsSpace c = false) ∧
    getContainerIDs (.ok "abc\n\n  \ndef\n") = .ok ["abc", "def"] := by
  refine ⟨fun e => rfl, fun raw => ?_, ?_, ?_⟩
  · simp [getContainerIDs, collectContainerIDs_eq]
  · intro raw ids s hok hs
    simp only [getContainerIDs, Except.ok.injEq] at hok
    subst hok
    rw [collectContainerIDs_eq] at hs
    obtain ⟨hmap, hne⟩ := List.mem_filter.mp hs
    have hsne : s ≠ "" := by simpa using hne
    obtain ⟨line, _, hline⟩ := List.mem_map.mp hmap
    refine ⟨hsne, ?_⟩
    rw [← hline]
    exact trimSpace_has_nonspace line (by rw [hline]; exact hsne)
  · rfl

/-- C3: `getContainerIDForNodeName` returns an error exactly when the
filter command fails (the command's own error, unmodified); zero matches
(empty output) yield the empty string with no error; and a single match
`tok` (output `tok ++ "\n"`) yields that token trimmed. -/
theorem getContainerIDForNodeName_spec :
    (∀ e, getContainerIDForNodeName (.error e) = .error e) ∧
    (∀ raw, getContainerIDForNodeName (.ok raw) = .ok (trimSpace raw)) ∧
    getContainerIDForNodeName (.ok "") = .ok "" ∧
    (∀ tok, getContainerIDForNodeName (.ok (tok ++ "\n")) =
        .ok (trimSpace tok)) := by
  refine ⟨fun e => rfl, fun raw => rfl, rfl, fun tok => ?_⟩
  simp [getContainerIDForNodeName, trimSpace_append_newline]

/-- C6 (counterexample): for a container attached to two networks with
addresses `10.0.0.5` and `10.0.0.9`, `getContainerAddr` does not return
the first network's address — the inspect template concatenates all of
them. -/
theorem getContainerAddr_first_cex :
    getContainerAddr (.ok (inspectFormatOutput ["10.0.0.5", "10.0.0.9"])) ≠
      Except.ok "10.0.0.5" := by
  intro h
  simp only [getContainerAddr, Except.ok.injEq] at h
  revert h
  decide

/-- C6 (amended): `getContainerAddr` returns an error exactly when the
inspect command fails; on success it returns the trimmed concatenation of
the addresses of ALL attached networks (in iteration order), hence the
empty string with no error for a container with no attached network. -/
theorem getContainerAddr_spec :
    (∀ e, getContainerAddr (.error e) = .error e) ∧
    (∀ raw, getContainerAddr (.ok raw) = .ok (trimSpace raw)) ∧
    getContainerAddr (.ok (inspectFormatOutput [])) = .ok "" ∧
    (∀ addrs, getContainerAddr (.ok (inspectFormatOutput addrs)) =
        .ok (trimSpace (inspectFormatOutput addrs))) :=
  ⟨fun _ => rfl, fun _ => rfl, rfl, fun _ => rfl⟩

/-- C4: `tailContainerLogs` returns an error exactly when creating the
per-run log file fails (that error, unmodified); when the file is
created it immediately returns success with one launched follow task per
identifier, in order, independent of any task's eventual outcome; and a
task's own failure produces exactly one warning tagged with that
container's identifier, a clean exit none. -/
theorem tailContainerLogs_spec :
    (∀ e ids, tailContainerLogs (some e) ids = .error e) ∧
    (∀ ids, tailContainerLogs none ids =
        .ok (ids.map fun containerID =>
          ⟨containerID, ["logs", "-f", containerID]⟩)) ∧
    (∀ ro t e, ro t.containerID = some e →
        followTaskWarnings ro t = [⟨t.containerID, e⟩]) ∧
    (∀ ro t, ro t.containerID = none → followTaskWarnings ro t = []) := by
  refine ⟨fun e ids => rfl, fun ids => rfl, ?_, ?_⟩
  · intro ro t e h
    simp [followTaskWarnings, h]
  · intro ro t h
    simp [followTaskWarnings, h]

/-- C4 (witness): two identifiers launch two follow tasks and return
success; a failed follow of `c1` warns once, tagged `c1`. -/
theorem tailContainerLogs_spec_witness :
    tailContainerLogs none ["c1", "c2"] =
      .ok [⟨"c1", ["logs", "-f", "c1"]⟩, ⟨"c2", ["logs", "-f", "c2"]⟩] ∧
    followTaskWarnings
        (fun containerID =>
          if containerID == "c1" then some (.cmdFailure "follow failed")
          else none)
        ⟨"c1", ["logs", "-f", "c1"]⟩ =
      [⟨"c1", .cmdFailure "follow failed"⟩] :=
  ⟨tailContainerLogs_spec.2.1 ["c1", "c2"],
   tailContainerLogs_spec.2.2.1 _ _ _ (by decide)⟩

/-- The invocation list of `printContainerLogs` is exactly one
`docker logs <id>` call per identifier, in order, regardless of
outcomes. -/
theorem printContainerLogs_calls (runOutcome : String → Option GoError)
    (ids : List String) :
    (printContainerLogs runOutcome ids).1 =
      ids.map fun containerID => ⟨containerID, ["logs", containerID]⟩ := by
  induction ids with
  | nil => rfl
  | cons c cs ih =>
    cases hro : runOutcome c <;> simp [printContainerLogs, hro, ih]

/-- The warning list of `printContainerLogs` is exactly one warning per
failing identifier, in order, tagged with that identifier and its
error. -/
theorem printContainerLogs_warns (runOutcome : String → Option GoError)
    (ids : List String) :
    (printContainerLogs runOutcome ids).2 =
      ids.filterMap fun containerID =>
        (runOutcome containerID).map fun e => LogWarning.mk containerID e := by
  induction ids with
  | nil => rfl
  | cons c cs ih =>
    cases hro : runOutcome c <;>
      simp [printContainerLogs, List.filterMap_cons, hro, ih]

/-- C5: `printContainerLogs` invokes the fetch-logs command once per
identifier sequentially and always completes after attempting all of
them; when exactly one invocation fails, exactly one warning is emitted,
tagged with the failing identifier, while every identifier is still
processed. -/
theorem printContainerLogs_spec :
    (∀ ro ids, (printContainerLogs ro ids).1 =
        ids.map fun containerID => ⟨containerID, ["logs", containerID]⟩) ∧
    (∀ ro ids, (printContainerLogs ro ids).2 =
        ids.filterMap fun containerID =>
          (ro containerID).map fun e => LogWarning.mk containerID e) ∧
    (∀ ro ids bad e, ro bad = some e →
        (∀ c, c ∈ ids → c ≠ bad → ro c = none) → ids.count bad = 1 →
        (printContainerLogs ro ids).2 = [⟨bad, e⟩]) := by
  refine ⟨printContainerLogs_calls, printContainerLogs_warns, ?_⟩
  intro ro ids bad e hbad hrest hcount
  rw [printContainerLogs_warns]
  exact filterMap_single_hit
    (fun containerID => (ro containerID).map fun er => LogWarning.mk containerID er)
    ids bad (LogWarning.mk bad e) (by simp [hbad])
    (fun c hc hne => by simp [hrest c hc hne]) hcount

/-- C5 (witness): with identifiers `a, b, c` and only `b` failing, every
identifier is invoked and exactly one warning, tagged `b`, is emitted. -/
theorem printContainerLogs_spec_witness :
    (printContainerLogs
        (fun containerID =>
          if containerID == "b" then some (.cmdFailure "logs failed")
          else none)
        ["a", "b", "c"]).2 =
      [⟨"b", .cmdFailure "logs failed"⟩] :=
  printContainerLogs_spec.2.2
    (fun containerID =>
      if containerID == "b" then some (.cmdFailure "logs failed")
      else none)
    ["a", "b", "c"] "b" (.cmdFailure "logs failed")
    (by decide) (by decide) (by decide)

/-- C10: for every non-empty insecure-registries value,
`handleInsecureRegistries` writes the daemon configuration with the `vfs`
storage driver exactly when the privileged flag equals `"true"`
case-insensitively, and with `overlay2` in every other case; an empty
insecure-registries value returns success without writing at all. -/
theorem handleInsecureRegistries_spec (reg priv : String) (h : reg ≠ "") :
    (storageDriverChosen (handleInsecureRegistries reg priv) =
        some vfsStorageDriver ↔ goEqualFold priv clabernetesTrue = true) ∧
    (storageDriverChosen (handleInsecureRegistries reg priv) =
        some overlayStorageDriver ↔
          goEqualFold priv clabernetesTrue = false) ∧
    handleInsecureRegistries "" priv = ConfigAction.noWrite := by
  have hne : (reg == "") = false := beq_eq_false_iff_ne.mpr h
  refine ⟨?_, ?_, rfl⟩ <;>
    by_cases hfold : goEqualFold priv clabernetesTrue <;>
      simp [handleInsecureRegistries, hne, hfold, storageDriverChosen,
        vfsStorageDriver, overlayStorageDriver]

/-- C10 (witness): a privileged pod (any casing of true) gets `vfs`, a
non-privileged one gets `overlay2`, and an empty registry list writes
nothing. -/
theorem handleInsecureRegistries_spec_witness :
    storageDriverChosen (handleInsecureRegistries "registry.local" "TRUE") =
      some vfsStorageDriver ∧
    storageDriverChosen (handleInsecureRegistries "registry.local" "false") =
      some overlayStorageDriver ∧
    handleInsecureRegistries "" "TRUE" = ConfigAction.noWrite :=
  ⟨(handleInsecureRegistries_spec "registry.local" "TRUE"
      (by decide)).1.mpr (by decide),
   (handleInsecureRegistries_spec "registry.local" "false"
      (by decide)).2.1.mpr (by decide),
   (handleInsecureRegistries_spec "registry.local" "TRUE"
      (by decide)).2.2⟩

/-- C2 (witness): the entry `"abc"` of the scenario output is non-blank
and contains a non-space character. -/
theorem getContainerIDs_spec_witness :
    "abc" ≠ "" ∧ ∃ c ∈ ("abc" : String).toList, goIsSpace c = false :=
  getContainerIDs_spec.2.2.1 "abc\n\n  \ndef\n" ["abc", "def"] "abc" rfl
    (by decide)
